import Mathlib

/-!
Verification development for the `feross` server-configuration module
(`src/index.js`).  The module preconfigures an Express application with
security headers, an HTTPS canonical-host redirect, HSTS, rate limiting,
static-file caching, a Rollbar error-reporter bridge and a
middleware-to-promise adapter.  Each JavaScript function is shallowly
embedded as an executable Lean definition; machine effects (response
headers, redirects, thrown errors) become explicit return values.
-/

namespace Feross

/-- Time (in ms) to cache the HTTP Strict-Transport-Security setting,
from `createServer`: `isProd ? 365*24*60*60*1000 : 0`. -/
def maxAgeHsts (isProd : Bool) : Nat :=
  if isProd then 365 * 24 * 60 * 60 * 1000 else 0

/-- An inbound HTTP request as seen by the security-header middleware:
`req.method`, `req.protocol`, `req.hostname`, `req.url`. -/
structure Request where
  method : String
  protocol : String
  hostname : String
  url : String
deriving DecidableEq, Repr

/-- Observable outcome of the security-header middleware for one request:
either a redirect response (chain terminated, `next` not called) or the
chain continuing with the given response headers set. -/
inductive SecAction where
  | redirect (status : Nat) (location : String)
  | continueChain (headers : List (String × String))
deriving DecidableEq, Repr

/-- The Strict-Transport-Security header value built in `useSecurityHeaders`:
the template string with `maxAgeHsts / 1000`. -/
def hstsValue (isProd : Bool) : String :=
  "max-age=" ++ toString (maxAgeHsts isProd / 1000) ++ "; includeSubDomains; preload"

/-- The middleware installed by `useSecurityHeaders`: redirect GET requests
that are not already on https at the canonical host (in production only),
otherwise set the HSTS and nosniff headers and call `next`. -/
def useSecurityHeaders (isProd : Bool) (host : String) (req : Request) : SecAction :=
  if isProd && req.method == "GET" &&
      (req.protocol != "https" || req.hostname != host) then
    .redirect 301 ("https://" ++ host ++ req.url)
  else
    .continueChain
      [("Strict-Transport-Security", hstsValue isProd),
       ("X-Content-Type-Options", "nosniff")]

/-- The Express settings applied by `useExpressConfig`:
`trust proxy`, `json spaces`, `x-powered-by`. -/
structure AppSettings where
  trustProxy : Bool
  jsonSpaces : Nat
  xPoweredBy : Bool
deriving DecidableEq, Repr

/-- Function `useExpressConfig` from `createServer`. -/
def useExpressConfig (isProd : Bool) : AppSettings :=
  { trustProxy := true
    jsonSpaces := if isProd then 0 else 2
    xPoweredBy := false }

/-- Configuration object passed to the external `express-rate-limit`
library by `useRateLimit`, together with the status and body its custom
`handler` sends. -/
structure RateLimitConfig where
  windowMs : Nat
  max : Nat
  headers : Bool
  handlerStatus : Nat
  handlerBody : String
deriving DecidableEq, Repr

/-- Default of the `maxRequestsPerSecond` option of `createServer`. -/
def defaultMaxRequestsPerSecond : Nat := 5

/-- Function `useRateLimit` from `createServer`: not installed outside production;
in production a limiter with a 60 s window, ceiling `60 * maxRequestsPerSecond`,
counter headers disabled, and a handler answering 503 with a fixed body. -/
def useRateLimit (isProd : Bool) (maxRequestsPerSecond : Nat) :
    Option RateLimitConfig :=
  if !isProd then none
  else
    some
      { windowMs := 60 * 1000
        max := 60 * maxRequestsPerSecond
        headers := false
        handlerStatus := 503
        handlerBody := "Blocked for too many requests" }

/-- Modelled from the spec: the fixed-window behavior of the external
`express-rate-limit` library, which is not part of this repository.  Within
one window the k-th request from one source is forwarded down the chain
(`none`) while `k ≤ max`, and once the ceiling is exceeded the configured
`handler` responds instead (`some (status, body)`), the request not being
forwarded.  When no limiter is installed every request is forwarded. -/
def rateLimitRespond (cfg : Option RateLimitConfig) (k : Nat) :
    Option (Nat × String) :=
  match cfg with
  | none => none
  | some c => if k ≤ c.max then none else some (c.handlerStatus, c.handlerBody)

/-- The configuration a `createServer` call attaches to the returned `app`. -/
structure ServerConfig where
  settings : AppSettings
  hstsMaxAgeMs : Nat
  rateLimit : Option RateLimitConfig
deriving DecidableEq, Repr

/-- Function `createServer`: throws (`Except.error`) when `isProd == null`
(absent option, i.e. `none`), otherwise applies the Express config, the
security headers, the logger and the rate limiter and returns the app. -/
def createServer (isProd : Option Bool) (maxRequestsPerSecond : Nat) :
    Except String ServerConfig :=
  match isProd with
  | none => .error "Missing `isProd` option"
  | some p =>
      .ok
        { settings := useExpressConfig p
          hstsMaxAgeMs := maxAgeHsts p
          rateLimit := useRateLimit p maxRequestsPerSecond }

/-- The Rollbar client constructed by `createRollbar`. -/
structure RollbarClient where
  accessToken : String
  captureUncaught : Bool
  captureUnhandledRejections : Bool
deriving DecidableEq, Repr

/-- An error value passed to the `checkIgnore` filter: only its `status`
field is read; `none` models a missing / non-numeric `status`. -/
structure ErrArg where
  status : Option Int
deriving DecidableEq, Repr

/-- The `checkIgnore` filter installed by `createRollbar`.  The source reads
`args[0].status` only on the non-uncaught path; with an empty `args` array
that property access is on `undefined` and throws (`Except.error`). -/
def checkIgnore (isUncaught : Bool) (args : List ErrArg) : Except String Bool :=
  if isUncaught then .ok false
  else
    match args.head? with
    | none => .error "TypeError: cannot read status of undefined"
    | some err =>
      if err.status = some 400 then .ok true
      else if err.status = some 403 then .ok true
      else if err.status = some 404 then .ok true
      else if err.status = some 412 then .ok true
      else if err.status = some 416 then .ok true
      else .ok false

/-- The HTTP statuses whose errors `checkIgnore` suppresses. -/
def ignoredStatuses : List Int := [400, 403, 404, 412, 416]

/-- Function `createRollbar`: throws when `isProd == null`; returns early (leaving
the global `rollbar` slot unchanged) when not in production; in production
writes a new client into the global slot. -/
def createRollbar (accessToken : String) (isProd : Option Bool)
    (slot : Option RollbarClient) : Except String (Option RollbarClient) :=
  match isProd with
  | none => .error "Missing `isProd` option"
  | some false => .ok slot
  | some true =>
      .ok (some
        { accessToken := accessToken
          captureUncaught := true
          captureUnhandledRejections := true })

/-- What `getRollbarHandler` returns: the initialized client's error
handler, or the pass-through `(req, res, next) => next()`. -/
inductive ErrorHandler where
  | clientHandler (c : RollbarClient)
  | passThrough
deriving DecidableEq, Repr

/-- Function `getRollbarHandler`, reading the global `rollbar` slot. -/
def getRollbarHandler (slot : Option RollbarClient) : ErrorHandler :=
  match slot with
  | some c => .clientHandler c
  | none => .passThrough

/-- Mutable response state visible to a middleware. -/
structure ResState where
  headers : List (String × String)
  status : Option Nat
  body : Option String
deriving DecidableEq, Repr

/-- The pass-through middleware `(req, res, next) => next()` returned by
`getRollbarHandler` when the slot is unset: the response state is returned
unchanged and the Bool records that `next` was called. -/
def passThroughMiddleware (res : ResState) : ResState × Bool := (res, true)

/-- Static-middleware options: the caller-supplied `opts` object of
`serveStatic`, of which only an explicit `maxAge` interacts with the
computed default. -/
structure StaticOpts where
  maxAge : Option Nat
deriving DecidableEq, Repr

/-- The configured `express.static` middleware returned by `serveStatic`. -/
structure StaticMiddleware where
  root : String
  maxAge : Nat
deriving DecidableEq, Repr

/-- Function `serveStatic`: throws when `isProd == null`; otherwise returns
`express.static(path, { maxAge: maxAgeStatic, ...opts })` — the computed
default is written first and the caller's options are spread after it, so
a caller-supplied `maxAge` wins over the default. -/
def serveStatic (path : String) (isProd : Option Bool) (opts : StaticOpts) :
    Except String StaticMiddleware :=
  match isProd with
  | none => .error "Missing `isProd` option"
  | some p =>
      .ok
        { root := path
          maxAge :=
            match opts.maxAge with
            | some a => a
            | none => if p then 365 * 24 * 60 * 60 * 1000 else 0 }

/-- A JavaScript value as seen by `runMiddleware`'s completion callback. -/
inductive JsVal where
  | errorVal (msg : String)
  | undef
  | nullVal
  | boolVal (b : Bool)
  | numVal (n : Int)
  | strVal (s : String)
deriving DecidableEq, Repr

/-- Test `result instanceof Error`. -/
def instanceOfError : JsVal → Bool
  | .errorVal _ => true
  | _ => false

/-- Settlement of the promise returned by `runMiddleware`. -/
inductive PromiseOutcome where
  | resolved (v : JsVal)
  | rejected (v : JsVal)
deriving DecidableEq, Repr

/-- Function `runMiddleware`: the wrapped middleware's completion callback value
decides the promise — reject exactly on an `Error` instance, resolve with
the value (including `undefined`) otherwise. -/
def runMiddleware (result : JsVal) : PromiseOutcome :=
  if instanceOfError result then .rejected result else .resolved result

end Feross

namespace Feross

/-- C1: in production a GET request whose protocol is not https or whose
hostname is not the canonical host gets a 301 redirect to
`https://` ++ host ++ url and the chain stops; in every other case —
including every request when `isProd = false` — no redirect occurs and the
chain continues. -/
theorem securityHeaders_redirect_correct (host : String) (req : Request) :
    (req.method = "GET" → (req.protocol ≠ "https" ∨ req.hostname ≠ host) →
      useSecurityHeaders true host req =
        .redirect 301 ("https://" ++ host ++ req.url)) ∧
    (∀ isProd : Bool,
      ¬(isProd = true ∧ req.method = "GET" ∧
          (req.protocol ≠ "https" ∨ req.hostname ≠ host)) →
      useSecurityHeaders isProd host req =
        .continueChain
          [("Strict-Transport-Security", hstsValue isProd),
           ("X-Content-Type-Options", "nosniff")]) ∧
    (∀ req2 : Request,
      useSecurityHeaders false host req2 =
        .continueChain
          [("Strict-Transport-Security", hstsValue false),
           ("X-Content-Type-Options", "nosniff")]) := by
  refine ⟨?_, ?_, ?_⟩
  · intro hm hp
    simp only [useSecurityHeaders, hm]
    have : (req.protocol != "https" || req.hostname != host) = true := by
      rcases hp with h | h
      · simp [bne_iff_ne, h]
      · simp [bne_iff_ne, h]
    simp [this]
  · intro isProd h
    push_neg at h
    simp only [useSecurityHeaders]
    rw [if_neg]
    intro hcond
    simp only [Bool.and_eq_true, Bool.or_eq_true, beq_iff_eq, bne_iff_ne] at hcond
    obtain ⟨⟨hprod, hget⟩, hor⟩ := hcond
    have := h hprod hget
    rcases hor with hne | hne
    · exact hne this.1
    · exact hne this.2
  · intro req2
    simp [useSecurityHeaders]

/-- Witness for C1 at concrete requests: an http GET to the canonical host
is redirected in production, and the same request continues the chain in
development. -/
theorem securityHeaders_redirect_correct_witness :
    useSecurityHeaders true "example.com"
        ⟨"GET", "http", "example.com", "/a?b=1"⟩ =
      .redirect 301 "https://example.com/a?b=1" ∧
    useSecurityHeaders false "example.com"
        ⟨"GET", "http", "example.com", "/a?b=1"⟩ =
      .continueChain
        [("Strict-Transport-Security", hstsValue false),
         ("X-Content-Type-Options", "nosniff")] :=
  ⟨(securityHeaders_redirect_correct "example.com"
      ⟨"GET", "http", "example.com", "/a?b=1"⟩).1 rfl (Or.inl (by decide)),
   (securityHeaders_redirect_correct "example.com"
      ⟨"GET", "http", "example.com", "/a?b=1"⟩).2.2
      ⟨"GET", "http", "example.com", "/a?b=1"⟩⟩

/-- C2: whenever the security-header middleware does not redirect, it sets
Strict-Transport-Security to exactly `max-age=0; includeSubDomains; preload`
in development and `max-age=31536000; includeSubDomains; preload` in
production (the ms constant divided by 1000 is 31536000 s) and
X-Content-Type-Options to `nosniff`, before the chain continues. -/
theorem securityHeaders_headers_correct (isProd : Bool) (host : String)
    (req : Request) (hs : List (String × String))
    (h : useSecurityHeaders isProd host req = .continueChain hs) :
    hs = [("Strict-Transport-Security",
            if isProd then "max-age=31536000; includeSubDomains; preload"
            else "max-age=0; includeSubDomains; preload"),
          ("X-Content-Type-Options", "nosniff")] ∧
    maxAgeHsts true / 1000 = 31536000 := by
  constructor
  · have hv : hstsValue isProd =
        if isProd then "max-age=31536000; includeSubDomains; preload"
        else "max-age=0; includeSubDomains; preload" := by
      cases isProd <;> rfl
    unfold useSecurityHeaders at h
    split at h
    · exact absurd h (by simp)
    · injection h with h1
      rw [← h1, hv]
  · rfl

/-- Witness for C2: a concrete https request to the canonical host in
production continues the chain with exactly the two headers. -/
theorem securityHeaders_headers_correct_witness :
    [("Strict-Transport-Security",
       if true then "max-age=31536000; includeSubDomains; preload"
       else "max-age=0; includeSubDomains; preload"),
     ("X-Content-Type-Options", "nosniff")] =
      [("Strict-Transport-Security", "max-age=31536000; includeSubDomains; preload"),
       ("X-Content-Type-Options", "nosniff")] ∧
    maxAgeHsts true / 1000 = 31536000 :=
  ⟨(securityHeaders_headers_correct true "example.com"
      ⟨"GET", "https", "example.com", "/"⟩
      [("Strict-Transport-Security", hstsValue true),
       ("X-Content-Type-Options", "nosniff")] rfl).1 ▸ rfl,
   (securityHeaders_headers_correct true "example.com"
      ⟨"GET", "https", "example.com", "/"⟩
      [("Strict-Transport-Security", hstsValue true),
       ("X-Content-Type-Options", "nosniff")] rfl).2⟩

/-- C3: `createServer`, `createRollbar` and `serveStatic` each throw
synchronously when `isProd` is absent (`none`, covering `undefined` and
`null`), before any middleware is attached (the error carries no
configuration), while `isProd = false` is accepted without throwing. -/
theorem isProd_required_throws (maxRequestsPerSecond : Nat)
    (accessToken path : String) (opts : StaticOpts)
    (slot : Option RollbarClient) :
    createServer none maxRequestsPerSecond = .error "Missing `isProd` option" ∧
    createRollbar accessToken none slot = .error "Missing `isProd` option" ∧
    serveStatic path none opts = .error "Missing `isProd` option" ∧
    (∃ cfg, createServer (some false) maxRequestsPerSecond = .ok cfg) ∧
    (∃ slot2, createRollbar accessToken (some false) slot = .ok slot2) ∧
    (∃ mw, serveStatic path (some false) opts = .ok mw) :=
  ⟨rfl, rfl, rfl, ⟨_, rfl⟩, ⟨_, rfl⟩, ⟨_, rfl⟩⟩

/-- C4: no rate limiter is installed in development, so no request volume
ever yields the rate-limit 503; in production the ceiling per 60000 ms
window is `60 * maxRequestsPerSecond` (300 for the default 5), counter
headers are suppressed, the request at the ceiling is forwarded, and the
request beyond it gets 503 `Blocked for too many requests` and is not
forwarded. -/
theorem rateLimit_spec (m k : Nat) :
    useRateLimit false m = none ∧
    rateLimitRespond (useRateLimit false m) k = none ∧
    (useRateLimit true m).map RateLimitConfig.windowMs = some 60000 ∧
    (useRateLimit true m).map RateLimitConfig.max = some (60 * m) ∧
    (useRateLimit true m).map RateLimitConfig.headers = some false ∧
    60 * defaultMaxRequestsPerSecond = 300 ∧
    (k ≤ 60 * m → rateLimitRespond (useRateLimit true m) k = none) ∧
    (60 * m < k →
      rateLimitRespond (useRateLimit true m) k =
        some (503, "Blocked for too many requests")) ∧
    rateLimitRespond (useRateLimit true defaultMaxRequestsPerSecond) 300 = none ∧
    rateLimitRespond (useRateLimit true defaultMaxRequestsPerSecond) 301 =
      some (503, "Blocked for too many requests") := by
  refine ⟨rfl, rfl, rfl, rfl, rfl, rfl, ?_, ?_, by decide, by decide⟩
  · intro hle
    simp [useRateLimit, rateLimitRespond, hle]
  · intro hlt
    simp [useRateLimit, rateLimitRespond, Nat.not_le.mpr hlt]

/-- Witness for C4 at `m = 5`: the 300th request in a window passes, the
301st is blocked. -/
theorem rateLimit_spec_witness :
    rateLimitRespond (useRateLimit true 5) 300 = none ∧
    rateLimitRespond (useRateLimit true 5) 301 =
      some (503, "Blocked for too many requests") :=
  ⟨(rateLimit_spec 5 300).2.2.2.2.2.2.1 (by decide),
   (rateLimit_spec 5 301).2.2.2.2.2.2.2.1 (by decide)⟩

/-- C5: `serveStatic` uses cache lifetime 0 ms in development and
31536000000 ms in production when the caller passes no `maxAge`, and any
caller-supplied `maxAge` (spread after the computed default) replaces the
default. -/
theorem serveStatic_maxAge_spec (path : String) (p : Bool) (opts : StaticOpts) :
    (opts.maxAge = none →
      (serveStatic path (some p) opts).map StaticMiddleware.maxAge =
        .ok (if p then 31536000000 else 0)) ∧
    (∀ a : Nat, opts.maxAge = some a →
      (serveStatic path (some p) opts).map StaticMiddleware.maxAge = .ok a) := by
  constructor
  · intro h
    cases p <;> simp [serveStatic, Except.map, h]
  · intro a h
    cases p <;> simp [serveStatic, Except.map, h]

/-- Witness for C5: with no caller `maxAge` the default applies in both
environments, and an explicit `maxAge` of 1234 overrides it. -/
theorem serveStatic_maxAge_spec_witness :
    (serveStatic "/public" (some true) ⟨none⟩).map StaticMiddleware.maxAge =
      .ok 31536000000 ∧
    (serveStatic "/public" (some false) ⟨none⟩).map StaticMiddleware.maxAge =
      .ok 0 ∧
    (serveStatic "/public" (some true) ⟨some 1234⟩).map StaticMiddleware.maxAge =
      .ok 1234 :=
  ⟨(serveStatic_maxAge_spec "/public" true ⟨none⟩).1 rfl,
   (serveStatic_maxAge_spec "/public" false ⟨none⟩).1 rfl,
   (serveStatic_maxAge_spec "/public" true ⟨some 1234⟩).2 1234 rfl⟩

/-- C6: `checkIgnore` returns false for every uncaught error; for
non-uncaught errors it returns true exactly when the error's status is one
of 400, 403, 404, 412, 416 and false for every other status. -/
theorem checkIgnore_spec (args : List ErrArg) (err : ErrArg)
    (rest : List ErrArg) :
    checkIgnore true args = .ok false ∧
    ((∃ s, err.status = some s ∧ s ∈ ignoredStatuses) →
      checkIgnore false (err :: rest) = .ok true) ∧
    ((∀ s, err.status = some s → s ∉ ignoredStatuses) →
      checkIgnore false (err :: rest) = .ok false) := by
  refine ⟨rfl, ?_, ?_⟩
  · rintro ⟨s, hs, hmem⟩
    simp only [ignoredStatuses, List.mem_cons, List.not_mem_nil, or_false] at hmem
    rcases hmem with h | h | h | h | h <;>
      simp [checkIgnore, hs, h]
  · intro hnone
    rcases herr : err.status with _ | s
    · simp [checkIgnore, herr]
    · have := hnone s herr
      simp only [ignoredStatuses, List.mem_cons, List.not_mem_nil, or_false,
        not_or] at this
      obtain ⟨h1, h2, h3, h4, h5⟩ := this
      simp [checkIgnore, herr, h1, h2, h3, h4, h5]

/-- Witness for C6: a 404 error is suppressed when caught, reported when
uncaught, and a 500 error is never suppressed. -/
theorem checkIgnore_spec_witness :
    checkIgnore true [⟨some 404⟩] = .ok false ∧
    checkIgnore false [⟨some 404⟩] = .ok true ∧
    checkIgnore false [⟨some 500⟩] = .ok false :=
  ⟨(checkIgnore_spec [⟨some 404⟩] ⟨some 404⟩ []).1,
   (checkIgnore_spec [⟨some 404⟩] ⟨some 404⟩ []).2.1 ⟨404, rfl, by decide⟩,
   (checkIgnore_spec [⟨some 500⟩] ⟨some 500⟩ []).2.2
     (fun s hs => by cases hs; decide)⟩

/-- C7: the promise returned by `runMiddleware` rejects with exactly the
callback's value when that value is an `Error` instance, and resolves with
exactly the value otherwise — including `undefined` (callback invoked with
no value) and other falsy values. -/
theorem runMiddleware_spec (v : JsVal) :
    (instanceOfError v = true → runMiddleware v = .rejected v) ∧
    (instanceOfError v = false → runMiddleware v = .resolved v) ∧
    runMiddleware .undef = .resolved .undef ∧
    runMiddleware .nullVal = .resolved .nullVal ∧
    runMiddleware (.boolVal false) = .resolved (.boolVal false) := by
  refine ⟨?_, ?_, rfl, rfl, rfl⟩
  · intro h
    simp [runMiddleware, h]
  · intro h
    simp [runMiddleware, h]

/-- Witness for C7: a concrete `Error` rejects, a concrete string
resolves. -/
theorem runMiddleware_spec_witness :
    runMiddleware (.errorVal "boom") = .rejected (.errorVal "boom") ∧
    runMiddleware (.strVal "ok") = .resolved (.strVal "ok") :=
  ⟨(runMiddleware_spec (.errorVal "boom")).1 rfl,
   (runMiddleware_spec (.strVal "ok")).2.1 rfl⟩

/-- C8: with the global slot unset — initially, or after `createRollbar`
with `isProd = false` — `getRollbarHandler` returns the pass-through
middleware, which calls `next` and leaves the response state unchanged;
with the slot set it returns the client's error handler. -/
theorem getRollbarHandler_spec (accessToken : String) (c : RollbarClient)
    (res : ResState) :
    getRollbarHandler none = .passThrough ∧
    (∀ slot2, createRollbar accessToken (some false) none = .ok slot2 →
      getRollbarHandler slot2 = .passThrough) ∧
    passThroughMiddleware res = (res, true) ∧
    getRollbarHandler (some c) = .clientHandler c := by
  refine ⟨rfl, ?_, rfl, rfl⟩
  intro slot2 h
  injection h with h2
  rw [← h2]
  rfl

/-- Witness for C8: a concrete development `createRollbar` call leaves the
handler a pass-through that only calls `next`. -/
theorem getRollbarHandler_spec_witness :
    getRollbarHandler none = .passThrough ∧
    passThroughMiddleware ⟨[], none, none⟩ = (⟨[], none, none⟩, true) ∧
    (createRollbar "tok" (some false) none = .ok none →
      getRollbarHandler none = .passThrough) :=
  ⟨(getRollbarHandler_spec "tok" ⟨"tok", true, true⟩ ⟨[], none, none⟩).1,
   (getRollbarHandler_spec "tok" ⟨"tok", true, true⟩ ⟨[], none, none⟩).2.2.1,
   (getRollbarHandler_spec "tok" ⟨"tok", true, true⟩ ⟨[], none, none⟩).2.1 none⟩

/-- C9: every app returned by `createServer` has `trust proxy` enabled,
the X-Powered-By header disabled, and `json spaces` 0 in production and 2
otherwise. -/
theorem expressConfig_spec (p : Bool) (m : Nat) :
    (createServer (some p) m).map (fun cfg => cfg.settings) =
      .ok { trustProxy := true
            jsonSpaces := if p then 0 else 2
            xPoweredBy := false } := by
  cases p <;> rfl

/-- C10: with `isUncaught = false` and an empty `args` array, `checkIgnore`
throws instead of returning a boolean (the property access is on an absent
value); with a non-empty `args` it always returns a boolean. -/
theorem checkIgnore_empty_args_throws :
    (∃ msg, checkIgnore false [] = .error msg) ∧
    (∀ (err : ErrArg) (rest : List ErrArg),
      ∃ b, checkIgnore false (err :: rest) = .ok b) := by
  refine ⟨⟨_, rfl⟩, ?_⟩
  intro err rest
  simp only [checkIgnore, List.head?, if_false, Bool.false_eq_true]
  rcases err.status with _ | s
  · exact ⟨false, by simp⟩
  · by_cases h1 : s = 400
    · exact ⟨true, by simp [h1]⟩
    · by_cases h2 : s = 403
      · exact ⟨true, by simp [h2]⟩
      · by_cases h3 : s = 404
        · exact ⟨true, by simp [h3]⟩
        · by_cases h4 : s = 412
          · exact ⟨true, by simp [h4]⟩
          · by_cases h5 : s = 416
            · exact ⟨true, by simp [h5]⟩
            · exact ⟨false, by simp [h1, h2, h3, h4, h5]⟩

end Feross
